import Mathlib

/-
Verification of the slcb-docker daemon against its specification.

The definitions below are a shallow embedding of the daemon sources
(daemon/daemon/http.py, daemon/daemon/manager.py, daemon/daemon/interface.py).
Asynchronous coroutines are embedded as explicit state passing; Python
exceptions are embedded with Except over an enumeration of the exception
classes the relevant paths can raise; Python dicts keyed by strings are
embedded as association lists in insertion order (the order dicts preserve).
-/

namespace Dock

/-- Python exception classes reachable in the embedded paths. TimeoutError
and CancelledError are distinct classes in every supported Python version
(CancelledError is not a superclass of TimeoutError), ValueError and
KeyError are distinct, and InjectorLoadUnloadError is the ValueError
subclass declared in interface.py; a bare ValueError is not an instance of
the subclass. -/
inductive PyExc
  | timeoutError
  | cancelledError
  | valueError
  | keyError
  | fileNotFoundError
  | typeError
  | injectorLoadUnloadError
deriving DecidableEq, Repr

/-- Python dict assignment d[k] = v on an association list: replace the
value in place when the key exists (dicts keep the original position),
append a fresh binding otherwise. -/
def dictSet {α : Type} (reg : List (String × α)) (k : String) (v : α) :
    List (String × α) :=
  if (reg.map Prod.fst).contains k then
    reg.map (fun kv => if kv.1 = k then (k, v) else kv)
  else
    reg ++ [(k, v)]

namespace Rpc

/-- Outcome of awaiting the future stored under a nonce: either
inbound_ack resolved it with a response value before the deadline, or the
5 second deadline elapsed first. -/
inductive WaitOutcome (ρ : Type)
  | resolved (v : ρ)
  | timedOut
deriving DecidableEq, Repr

/-- Semantics of asyncio.wait_for(waiter, timeout): the value of the future
when it resolves in time; otherwise asyncio.TimeoutError is raised to the
awaiting caller (wait_for cancels the inner future internally, but what it
raises outward at the deadline is TimeoutError, not CancelledError). -/
def waitFor {ρ : Type} : WaitOutcome ρ → Except PyExc ρ
  | .resolved v => .ok v
  | .timedOut => .error .timeoutError

/-- The RPC-relevant state of HTTPHandler: the keys of self.nonces (the
pending-call table, insertion order) and self.waiting_for_poll (the queued
outbound payloads). -/
structure RpcState (π : Type) where
  nonces : List String
  waitingForPoll : List (String × π)
deriving DecidableEq, Repr

/-- First half of HTTPHandler.put_request (http.py lines 278-282): store a
future under the fresh nonce and append the payload to the outbound
queue. -/
def putRequestIssue {π : Type} (st : RpcState π) (nonce : String) (payload : π) :
    RpcState π :=
  { nonces := st.nonces ++ [nonce]
    waitingForPoll := st.waitingForPoll ++ [(nonce, payload)] }

/-- Result of one run of HTTPHandler.inbound_ack over the ack messages:
the nonce table after the loop, the futures resolved (nonce and response,
in order), and the unknown nonces that were logged. -/
structure AckResult (ρ : Type) where
  nonces : List String
  resolved : List (String × ρ)
  warned : List String
deriving DecidableEq, Repr

/-- Body of HTTPHandler.inbound_ack (http.py lines 245-253): for each
message, when its nonce is a pending key the entry is popped and the
future is resolved with the message response; otherwise a warning is
logged and the message is discarded. -/
def inbound_ack {ρ : Type} (nonces : List String) (msgs : List (String × ρ)) :
    AckResult ρ :=
  msgs.foldl
    (fun acc msg =>
      if msg.1 ∈ acc.nonces then
        { acc with
            nonces := acc.nonces.erase msg.1
            resolved := acc.resolved ++ [msg] }
      else
        { acc with warned := acc.warned ++ [msg.1] })
    ⟨nonces, [], []⟩

/-- Second half of HTTPHandler.put_request (http.py lines 284-291): await
the future under try/except asyncio.CancelledError. The nonce-table
argument is the table at the moment the wait finishes; when an ack
resolved the future, inbound_ack has already popped the entry. The result
is the table afterwards together with either the returned value (some
response, or none from the except branch) or an exception that escapes
put_request. -/
def putRequestResume {ρ : Type} (nonces : List String) (nonce : String)
    (o : WaitOutcome ρ) : List String × Except PyExc (Option ρ) :=
  match waitFor o with
  | .ok v => (nonces, .ok (some v))
  | .error e =>
      if e = PyExc.cancelledError then (nonces.erase nonce, .ok none)
      else (nonces, .error e)

end Rpc

namespace Manager

/-- Listener-table view of a Plugin used for the reload lifecycle: the
flattened listener table (event name, handler id, in registration order),
the _is_loaded flag, the number of completed module.init runs, and the
number of times the unload chain was fired by eject_listeners. -/
structure MPlugin where
  listeners : List (String × Nat)
  isLoaded : Bool
  initCalls : Nat
  unloadEvents : Nat
deriving DecidableEq, Repr

/-- Plugin.add_listeners (manager.py lines 86-91): append every entry of
the injector dict to the per-event lists; flattened here, preserving
registration order. -/
def addListeners (p : MPlugin) (ls : List (String × Nat)) : MPlugin :=
  { p with listeners := p.listeners ++ ls }

/-- Plugin.eject_listeners (manager.py lines 154-156): fire the unload
listeners, then clear the whole table. -/
def ejectListeners (p : MPlugin) : MPlugin :=
  { p with unloadEvents := p.unloadEvents + 1, listeners := [] }

/-- Plugin.eject (manager.py lines 158-160): mark not loaded, then eject
the listeners. -/
def eject (p : MPlugin) : MPlugin :=
  ejectListeners { p with isLoaded := false }

/-- Plugin.try_load (manager.py lines 133-152) in the successful case:
re-import the module and await module.init, whose injector loads register
initL through Plugin.add_listeners. try_load does not touch _is_loaded;
Plugin.load sets it afterwards, PluginManager.reload_plugin does not. -/
def tryLoad (p : MPlugin) (initL : List (String × Nat)) : MPlugin :=
  { addListeners p initL with initCalls := p.initCalls + 1 }

/-- PluginManager.reload_plugin (manager.py lines 294-308) acting on a
registered plugin whose init succeeds: eject when _is_loaded is set, then
try_load. The code contains no assignment setting _is_loaded back to True
after a successful reload. -/
def reload_plugin (p : MPlugin) (initL : List (String × Nat)) : MPlugin :=
  tryLoad (if p.isLoaded then eject p else p) initL

/-- Payload type enum. Modelled from the spec: daemon/daemon/enums.py is
absent from the sources; the member list and values follow the PayloadType
literal documented in daemon/daemon/type/payloads.py (0 execute, 1 parse,
2 state, 3 reload, 4 button). -/
inductive PayloadTypeEnum
  | execute
  | parse
  | state
  | reloadP
  | button
deriving DecidableEq, Repr

/-- Enum decoding helper. Modelled from the spec: enums.py is absent from
the sources; try_enum returns the member whose value matches, none for an
unknown value. -/
def try_enum : Nat → Option PayloadTypeEnum
  | 0 => some .execute
  | 1 => some .parse
  | 2 => some .state
  | 3 => some .reloadP
  | 4 => some .button
  | _ => none

/-- Observable outcome of PluginManager.handle_button: the normal return
or the exception it raises, the warnings it logs, and the (plugin id,
element) listener batches it dispatches. -/
structure ButtonOutcome where
  result : Except PyExc Unit
  logWarnings : List String
  dispatched : List (String × String)
deriving Repr

/-- PluginManager.handle_button (manager.py lines 256-270): TypeError for
a payload whose type is not button; for a plugin_id that is not a registry
key, a warning is logged and ValueError is raised; otherwise the button
listeners of that plugin are called with the element. -/
def handle_button (pluginIds : List String) (ptype : Nat)
    (pluginId element : String) : ButtonOutcome :=
  if try_enum ptype ≠ some PayloadTypeEnum.button then
    ⟨.error .typeError, [], []⟩
  else if pluginId ∉ pluginIds then
    ⟨.error .valueError,
      ["Inbound button payload referencing unknown plugin " ++ pluginId
        ++ ". Discarding"], []⟩
  else
    ⟨.ok (), [], [(pluginId, element)]⟩

/-- HTTPHandler.inbound_button (http.py lines 233-239): the bearer guard,
then await handle_button with no surrounding try/except, so an exception
escaping handle_button is turned into a 500 Internal Server Error response
by aiohttp; a normal return yields 204. Result: HTTP status paired with
the manager outcome. -/
def inbound_button (authOk : Bool) (pluginIds : List String) (ptype : Nat)
    (pluginId element : String) : Nat × ButtonOutcome :=
  if ¬ authOk then (401, ⟨.ok (), [], []⟩)
  else
    let o := handle_button pluginIds ptype pluginId element
    match o.result with
    | .ok _ => (204, o)
    | .error _ => (500, o)

/-- Result of the id-resolution block of Plugin.load_meta: the value of
meta.script_id afterwards and the content written to the .__dock_store
marker file, if any. -/
structure IdResolution where
  scriptId : Option String
  storeWritten : Option String
deriving DecidableEq, Repr

/-- Id-resolution block of Plugin.load_meta (manager.py lines 119-128),
for a directory whose plugin.json parsed with all required keys. hasStore
is whether .__dock_store is in the directory listing, callerId the
script_id argument (none for the falsy case), stored the marker content on
disk, fresh the uuid the code would generate. The branch structure follows
the source: the first branch fires when the marker is absent and no caller
id was given (generate and persist); the second branch is guarded by the
marker being absent, yet opens that very file for reading, raising
FileNotFoundError; when the marker is present neither branch runs and the
stored content is never read. -/
def load_meta_id (hasStore : Bool) (callerId : Option String)
    (stored fresh : String) : Except PyExc IdResolution :=
  if ¬ hasStore ∧ callerId = none then .ok ⟨some fresh, some fresh⟩
  else if ¬ hasStore then .error .fileNotFoundError
  else .ok ⟨callerId, none⟩

/-- Failure point of one PluginManager.load_plugin attempt, as the source
distinguishes them: the four PreLoadFailure raises of Plugin.load_meta,
the two PluginLoadFailed raises of Plugin.try_load (carrying the formatted
traceback text, and for an init failure also the listeners init managed to
register before raising), and success (carrying the listeners init
registered). -/
inductive LoadScenario
  | noManifest
  | manifestParseError
  | missingKey (k : String)
  | noInitPy
  | importError (tb : String)
  | initError (tb : String) (pre : List (String × Nat))
  | loadOk (initL : List (String × Nat))
deriving DecidableEq, Repr

/-- First component of the Plugin.load return value (manager.py lines
63-84): the Ellipsis sentinel on a pre-load failure, False on a load
failure, True on success. -/
inductive LoadFlag
  | ell
  | failed
  | ok
deriving DecidableEq, Repr

/-- Message attribute of PluginLoadFailed (manager.py lines 27-31); the
quote marks the source puts around the script name are omitted here. -/
def loadFailedMessage (scriptName error : String) : String :=
  "Failed to load script " ++ scriptName ++ ": " ++ error

/-- Plugin state observable after one Plugin.load run: the listener table,
the _is_loaded flag, and how many times the unload chain was fired by
eject_listeners. -/
structure PState where
  listeners : List (String × Nat)
  isLoaded : Bool
  ejections : Nat
deriving DecidableEq, Repr

/-- Plugin.load (manager.py lines 63-84) for a freshly constructed Plugin
(empty listener table) whose id resolved to sid, composed with the
load_meta and try_load outcome selected by the scenario; dirname is the
directory basename, name the manifest name field. A PreLoadFailure yields
the Ellipsis flag and a message prefixed accordingly; a PluginLoadFailed
yields False with the original traceback appended, ejecting first when
init registered any listeners; success sets _is_loaded and returns the
script id. -/
def plugin_load (dirname name sid : String) (sc : LoadScenario) :
    PState × LoadFlag × String :=
  match sc with
  | .noManifest =>
      (⟨[], false, 0⟩, .ell,
        "Could not identify the plugin for loading:\n"
          ++ loadFailedMessage ("@" ++ dirname)
              "directory does not contain a plugin.json file.")
  | .manifestParseError =>
      (⟨[], false, 0⟩, .ell,
        "Could not identify the plugin for loading:\n"
          ++ loadFailedMessage ("@" ++ dirname) "unable to load plugin.json")
  | .missingKey k =>
      (⟨[], false, 0⟩, .ell,
        "Could not identify the plugin for loading:\n"
          ++ loadFailedMessage ("@" ++ dirname)
              ("plugin.json is missing key: " ++ k))
  | .noInitPy =>
      (⟨[], false, 0⟩, .ell,
        "Could not identify the plugin for loading:\n"
          ++ loadFailedMessage name "no init.py file found")
  | .importError tb =>
      (⟨[], false, 0⟩, .failed,
        loadFailedMessage name "Failed to load module" ++ "\n" ++ tb)
  | .initError tb pre =>
      (⟨[], false, if pre.isEmpty then 0 else 1⟩, .failed,
        loadFailedMessage name "Encountered an error while calling init"
          ++ "\n" ++ tb)
  | .loadOk initL => (⟨initL, true, 0⟩, .ok, sid)

/-- Whether self.meta was assigned by load_meta in the given scenario: the
PluginMeta construction fails only on a missing required key, and is not
reached when the manifest is absent or unparsable; from the marker-file
block onwards meta is set. -/
def metaSet : LoadScenario → Bool
  | .noManifest | .manifestParseError | .missingKey _ => false
  | _ => true

/-- PluginManager.load_plugin (manager.py lines 272-292): early return
when a caller-supplied id is already a registry key, early return when the
directory does not exist; otherwise a fresh Plugin is constructed and
loaded, and it is attached to the registry under meta.script_id whenever
the flag is not the Ellipsis sentinel (the dev can then retry from the
ui); the returned id is meta.script_id when meta was assigned, None
otherwise. Returns the registry, the ok flag, the id and the response. -/
def load_plugin (reg : List (String × PState)) (dirname name sid : String)
    (pluginId : Option String) (dirExists : Bool) (sc : LoadScenario) :
    List (String × PState) × Bool × Option String × String :=
  if pluginId.elim false (fun pid => (reg.map Prod.fst).contains pid) then
    (reg, false, none, "Plugin is already loaded")
  else if ¬ dirExists then
    (reg, false, none, "The given directory does not exist")
  else
    let r := plugin_load dirname name sid sc
    let reg2 := if r.2.1 ≠ LoadFlag.ell then dictSet reg sid r.1 else reg
    ⟨reg2, r.2.1 == LoadFlag.ok, if metaSet sc then some sid else none, r.2.2⟩

end Manager

namespace Parse

/-- Plugin.call_parse_hook (manager.py lines 198-211): a plugin without a
parse listener returns the payload string unchanged; otherwise the first
registered parse listener rewrites it, and a listener that raises leaves
the string unchanged for that step (the error is routed to the error
chain). The hook argument is the first entry of the parse chain, if
any. -/
def call_parse_hook (hook : Option (String → Except Unit String))
    (s : String) : String :=
  match hook with
  | none => s
  | some f =>
      match f s with
      | .ok t => t
      | .error _ => s

/-- Inner loop of PluginManager.handle_parse (manager.py lines 248-252):
one pass over the registry in registration order, threading the mutable
payload string; plugins without a parse hook are skipped by the code with
continue, which call_parse_hook mirrors by returning the string
unchanged. -/
def parsePass (hooks : List (Option (String → Except Unit String)))
    (s : String) : String :=
  hooks.foldl (fun acc h => call_parse_hook h acc) s

/-- PluginManager.handle_parse (manager.py lines 240-254) for a payload of
parse type (a payload of any other type raises TypeError before the loop):
for _ in range(2), the full pass over the plugin set. -/
def handle_parse (hooks : List (Option (String → Except Unit String)))
    (s : String) : String :=
  parsePass hooks (parsePass hooks s)

end Parse

namespace Routes

/-- Server-side fields the route guards consult: self._auth (the session
secret once set), self.challenge, and the kill_code read from argv at
startup (http.py line 22). -/
structure ServerState where
  auth : Option String
  challenge : Option String
  killCode : Option String
deriving DecidableEq, Repr

/-- Request fields the route guards consult: the Authorization header,
the challenge value in the body (for /pingpong) and the code query
parameter (for /kill). -/
structure Request where
  header : Option String
  bodyChallenge : Option String
  queryCode : Option String
deriving DecidableEq, Repr

/-- Gate outcome of a route handler: the 401 unauthorized rejection, or
the handler body proceeding past its guard. -/
inductive GateResult
  | unauthorized
  | proceeds
deriving DecidableEq, Repr

/-- The bearer check repeated as the first line of the guarded handlers
(http.py): true (reject) when the Authorization header is absent or
differs from self._auth. -/
def bearerGuard (st : ServerState) (r : Request) : Bool :=
  r.header == none || r.header != st.auth

/-- GET /version (route_version, http.py lines 130-131): no guard. -/
def gate_version (_st : ServerState) (_r : Request) : GateResult := .proceeds

/-- POST /auth (route_auth, http.py lines 133-144): rejects with 401
whenever a secret is already set, whatever the header carries; only
before the handshake does the body run. -/
def gate_auth (st : ServerState) (_r : Request) : GateResult :=
  if st.auth.isSome then .unauthorized else .proceeds

/-- The shared bearer gate of /pingpong, /authcheck, /outbound, /inbound,
/inbound/parse, /inbound/button, /inbound-ack, /inbound/load-plugin and
/inbound/reload-plugin (http.py lines 146-147, 195-196, 202-203, 211-212,
220-221, 233-234, 241-242, 256-257, 267-268). -/
def gate_bearer (st : ServerState) (r : Request) : GateResult :=
  if bearerGuard st r then .unauthorized else .proceeds

/-- GET /kill (route_kill_override, http.py lines 170-193): 401 when no
kill code was given at startup or the code query parameter is absent or
different; the Authorization header is never consulted. -/
def gate_kill (st : ServerState) (r : Request) : GateResult :=
  match st.killCode with
  | none => .unauthorized
  | some kc =>
      if r.queryCode == none || r.queryCode != some kc then .unauthorized
      else .proceeds

/-- The route table registered in HTTPHandler.__init__ (http.py lines
45-57), each route paired with its gate. -/
def routeTable : List (String × (ServerState → Request → GateResult)) :=
  [("/version", gate_version),
   ("/auth", gate_auth),
   ("/pingpong", gate_bearer),
   ("/kill", gate_kill),
   ("/authcheck", gate_bearer),
   ("/outbound", gate_bearer),
   ("/inbound", gate_bearer),
   ("/inbound/parse", gate_bearer),
   ("/inbound/button", gate_bearer),
   ("/inbound-ack", gate_bearer),
   ("/inbound/load-plugin", gate_bearer),
   ("/inbound/reload-plugin", gate_bearer)]

/-- Gate lookup by route path. -/
def routeGate (name : String) :
    Option (ServerState → Request → GateResult) :=
  (routeTable.find? (fun p => p.1 == name)).map Prod.snd

/-- The routes whose first guard is the bearer check: every route of the
table except /version, /auth and /kill. -/
def bearerGuardedRoutes : List String :=
  ["/pingpong", "/authcheck", "/outbound", "/inbound", "/inbound/parse",
   "/inbound/button", "/inbound-ack", "/inbound/load-plugin",
   "/inbound/reload-plugin"]

end Routes

namespace Err

/-- A Python exception as the error chain observes it: the text that
traceback.format_exception produces for it. -/
structure PyError where
  trace : String
deriving DecidableEq, Repr

/-- An error handler: called with the event name and the exception,
returning the response text, or raising an exception of its own. -/
abbrev ErrHandler : Type := String → PyError → Except PyError String

/-- Injector.on_error (interface.py lines 150-151): the default handler,
returning the formatted exception trace. -/
def on_error : ErrHandler := fun _ e => .ok e.trace

/-- Injector.__new__ (interface.py lines 124-131): when the declared
listener map lacks an "error" entry, the class default on_error is added
(dict insertion appends at the end). -/
def injectorListeners (declared : List (String × ErrHandler)) :
    List (String × ErrHandler) :=
  if (declared.map Prod.fst).contains "error" then declared
  else declared ++ [("error", on_error)]

/-- The "error" chain a plugin accumulates: Plugin.add_listeners appends
each loaded injector map to the per-event lists, so the chain is the
concatenation of the "error" entries of the loaded injector maps in load
order. -/
def errorChain (loaded : List (List (String × ErrHandler))) :
    List ErrHandler :=
  (loaded.flatten.filter (fun p => p.1 == "error")).map Prod.snd

/-- Note appended to every report while more than one error handler is
registered (manager.py lines 178-179). -/
def multiNote : String :=
  "\n\nMultiple error handlers registered. Only one will be used, and this message will not go away until there is only one"

/-- Plugin.call_error_listeners (manager.py lines 162-181): with an empty
chain the function returns at once (no report); otherwise only the first
registered handler is called; a handler that raises is replaced by a
wrapper line plus the trace of the new exception; when more than one
handler is registered the persistent note is appended; the result is the
report handed to notify_error. -/
def call_error_listeners (chain : List ErrHandler) (event : String)
    (err : PyError) : Option String :=
  match chain with
  | [] => none
  | h :: rest =>
      let response :=
        match h event err with
        | .ok s => s
        | .error e2 => "An error occurred in the error handler\n" ++ e2.trace
      some (if rest.isEmpty then response else response ++ multiNote)

end Err

namespace Inj

/-- Python runtime values appearing in a plugin listener table: callback
functions and injector instances identified by object id, None, and
tuples of values. -/
inductive PyVal
  | callback (oid : Nat)
  | injectorV (oid : Nat)
  | noneV
  | tup (a b : PyVal)
deriving DecidableEq, Repr

/-- Python == on these values: identity within callbacks and within
injector instances, componentwise on tuples, and False across different
kinds (a tuple never compares equal to a bare function). -/
def pyEq : PyVal → PyVal → Bool
  | .callback a, .callback b => a == b
  | .injectorV a, .injectorV b => a == b
  | .noneV, .noneV => true
  | .tup a b, .tup c d => pyEq a c && pyEq b d
  | _, _ => false

/-- Python list.remove(v): drop the first element comparing equal to v,
raising ValueError when none does. -/
def listRemove (l : List PyVal) (v : PyVal) : Except PyExc (List PyVal) :=
  match l with
  | [] => .error .valueError
  | x :: xs =>
      if pyEq x v then .ok xs else (listRemove xs v).map (fun t => x :: t)

/-- A plugin listener table: event name to the list of stored entries, in
dict insertion order. -/
abbrev LTable : Type := List (String × List PyVal)

/-- Dict lookup on the table. -/
def tableGet (t : LTable) (k : String) : Option (List PyVal) :=
  (t.find? (fun p => p.1 == k)).map Prod.snd

/-- Plugin.add_listeners (manager.py lines 86-91): for each declared
(name, cb), ensure the per-event list exists and append the
(injector, cb) tuple to it. -/
def add_listeners (t : LTable) (inj : Nat) (ls : List (String × Nat)) :
    LTable :=
  ls.foldl
    (fun t nc =>
      Dock.dictSet t nc.1
        ((tableGet t nc.1).getD []
          ++ [PyVal.tup (.injectorV inj) (.callback nc.2)]))
    t

/-- Plugin.remove_listeners (manager.py lines 93-101): for each declared
(name, cb), skip when the event has no list; otherwise attempt
list.remove(cb) on the stored entries — the bare callback, while
add_listeners stored (injector, cb) tuples — and swallow the ValueError
when nothing matches. -/
def remove_listeners (t : LTable) (ls : List (String × Nat)) : LTable :=
  ls.foldl
    (fun t nc =>
      match tableGet t nc.1 with
      | none => t
      | some cur =>
          match listRemove cur (.callback nc.2) with
          | .ok cur2 => Dock.dictSet t nc.1 cur2
          | .error _ => t)
    t

/-- Interface state: self.__injectors (instance ids in load order)
together with the owning plugin listener table. -/
structure IState where
  injectors : List Nat
  table : List (String × List PyVal)
deriving DecidableEq, Repr

/-- Interface.load_injector (interface.py lines 19-24): reject an
injector already in the list with InjectorLoadUnloadError before touching
anything; otherwise run Injector._setup (Plugin.add_listeners with the
declared map) and append the injector. -/
def load_injector (st : IState) (inj : Nat)
    (handlers : List (String × Nat)) : Except PyExc IState :=
  if st.injectors.contains inj then .error .injectorLoadUnloadError
  else .ok ⟨st.injectors ++ [inj], add_listeners st.table inj handlers⟩

/-- Interface.unload_injector (interface.py lines 26-32): list.remove on
self.__injectors — which raises ValueError for a missing element, while
the except clause names KeyError, so the bare ValueError propagates — and
then Injector._teardown (Plugin.remove_listeners with the declared
map). -/
def unload_injector (st : IState) (inj : Nat)
    (handlers : List (String × Nat)) : Except PyExc IState :=
  if st.injectors.contains inj then
    .ok ⟨st.injectors.erase inj, remove_listeners st.table handlers⟩
  else .error .valueError

end Inj

namespace Daemon

/-- The per-plugin fields the registry operations touch: the enabled flag
(Plugin.__init__, manager.py line 56, sets it False), the _is_loaded flag
and the flattened listener table. -/
structure DPlugin where
  enabled : Bool
  isLoaded : Bool
  listeners : List (String × Nat)
deriving DecidableEq, Repr

/-- Plugin.__init__ (manager.py lines 50-61): self.enabled = False. -/
def newPlugin : DPlugin := ⟨false, false, []⟩

/-- Registry effect of PluginManager.load_plugin when the load got far
enough to attach the plugin (the flag was not the Ellipsis sentinel): the
freshly constructed Plugin with whatever listeners init registered (empty
again when a load failure ejected them) and _is_loaded per the outcome.
No statement in load_plugin, Plugin.load, Plugin.load_meta or
Plugin.try_load assigns Plugin.enabled. -/
def loadOp (reg : List (String × DPlugin)) (sid : String)
    (ls : List (String × Nat)) (ok : Bool) : List (String × DPlugin) :=
  Dock.dictSet reg sid { newPlugin with listeners := ls, isLoaded := ok }

/-- Registry effect of PluginManager.reload_plugin on the targeted script
id (identity when the id is not registered): listeners become whatever
eject plus the re-run of init left, _is_loaded is left False (reload never
sets it back); reload_plugin contains no assignment to Plugin.enabled. -/
def reloadOp (reg : List (String × DPlugin)) (sid : String)
    (ls : List (String × Nat)) : List (String × DPlugin) :=
  reg.map (fun kv =>
    if kv.1 = sid then
      (kv.1, { kv.2 with listeners := ls, isLoaded := false })
    else kv)

/-- Registry states reachable from PluginManager.__init__ (self.plugins
= {}) under the daemon operations. Only load_plugin and reload_plugin
mutate the registry or plugin fields: handle_inbound, handle_parse and
handle_button dispatch without assigning plugin fields, unload_plugin
returns before mutating anything, evict_plugins and graceful_shutdown are
bare-Ellipsis stubs, and no HTTP route touches plugins except through the
manager calls above. -/
inductive Reach : List (String × DPlugin) → Prop
  | init : Reach []
  | load (s : List (String × DPlugin)) (sid : String)
      (ls : List (String × Nat)) (ok : Bool) :
      Reach s → Reach (loadOp s sid ls ok)
  | reloadR (s : List (String × DPlugin)) (sid : String)
      (ls : List (String × Nat)) :
      Reach s → Reach (reloadOp s sid ls)

/-- PluginManager.handle_inbound for a type-0 payload (manager.py lines
226-232): the plugins for which an _execute_callback task is created —
exactly those whose enabled flag is True. _execute_callback is the only
caller of the message and raw_message listeners. -/
def broadcastTargets (reg : List (String × DPlugin)) : List String :=
  (reg.filter (fun kv => kv.2.enabled)).map Prod.fst

end Daemon

end Dock

namespace Dock.Rpc

/-- C1: for an RPC call issued through put_request, the acknowledgement
half of the claim holds: an ack carrying the nonce resolves the call with
exactly the ack response and pops the pending entry. The timeout half
fails on the code: at the deadline asyncio.wait_for raises TimeoutError,
the except clause only names asyncio.CancelledError, so the issuer
receives an uncaught TimeoutError instead of None and the nonce entry
stays in the pending table. Evaluated here at a concrete pending call with
nonce n0 and response 7. -/
theorem put_request_timeout_uncaught :
    (putRequestResume ["n0"] "n0" (WaitOutcome.timedOut (ρ := Nat))
      = (["n0"], Except.error PyExc.timeoutError))
    ∧ (inbound_ack ["n0"] [("n0", 7)]
      = { nonces := [], resolved := [("n0", 7)], warned := [] })
    ∧ (putRequestResume [] "n0" (WaitOutcome.resolved 7)
      = ([], Except.ok (some 7)))
    ∧ (putRequestIssue (RpcState.mk [] []) "n0" 99
      = { nonces := ["n0"], waitingForPoll := [("n0", 99)] }) := by
  refine ⟨?_, ?_, rfl, rfl⟩
  · simp [putRequestResume, waitFor]
  · simp [inbound_ack]

end Dock.Rpc

namespace Dock.Manager

/-- C2: the claim fails on the code. Starting from a loaded plugin (as
Plugin.load leaves it: _is_loaded True, one listener registered by init),
the first reload_plugin call clears and rebuilds the table, but it leaves
_is_loaded False (the code never sets it back), so the second reload_plugin
call skips eject entirely: the unload chain fires only once across the two
calls and the listener registered by init appears twice in the table after
the second reload. -/
theorem reload_twice_duplicates_listeners :
    (reload_plugin ⟨[("message", 0)], true, 1, 0⟩ [("message", 0)]
      = ⟨[("message", 0)], false, 2, 1⟩)
    ∧ (reload_plugin (reload_plugin ⟨[("message", 0)], true, 1, 0⟩
          [("message", 0)]) [("message", 0)]
      = ⟨[("message", 0), ("message", 0)], false, 3, 1⟩) := by
  constructor <;> rfl

/-- C3: the claim fails on the code. For an authorized button payload
(type 4) whose plugin_id is not a registry key, handle_button performs no
dispatch and logs a warning — but it then raises ValueError, which
inbound_button does not catch, so the caller of /inbound/button observes a
500 Internal Server Error response rather than the normal 204 success. -/
theorem button_unknown_plugin_raises :
    inbound_button true ["p1"] 4 "ghost" "btn"
      = (500,
         ⟨.error .valueError,
          ["Inbound button payload referencing unknown plugin ghost. Discarding"],
          []⟩) := by
  rfl

/-- C4: the claim fails on the code. With the marker file present and no
caller-supplied id, load_meta leaves script_id unset (none) and never
reads the persisted content, because the read branch is guarded by the
marker being absent; with the marker absent and a caller-supplied id, the
code raises FileNotFoundError instead of reusing the caller id; only the
generate-and-persist path (marker absent, no caller id) behaves as the
claim states. -/
theorem persisted_id_never_reused :
    (load_meta_id true none "persisted-id" "fresh-id"
      = .ok ⟨none, none⟩)
    ∧ (load_meta_id false (some "caller-id") "persisted-id" "fresh-id"
      = .error .fileNotFoundError)
    ∧ (load_meta_id true (some "caller-id") "persisted-id" "fresh-id"
      = .ok ⟨some "caller-id", none⟩)
    ∧ (load_meta_id false none "persisted-id" "fresh-id"
      = .ok ⟨some "fresh-id", some "fresh-id"⟩) := by
  refine ⟨?_, ?_, ?_, ?_⟩ <;> simp [load_meta_id]

/-- C5: a pre-load failure (missing manifest, unparsable manifest, missing
required manifest field — and likewise the missing init.py check) leaves
the registry unchanged, whatever the guards did; when the caller-supplied
id guard and the directory guard pass, a failure at module import or at
the init entry point attaches the plugin to the registry under its id,
marked not loaded, with its listener table empty (ejected when init had
registered any), and the response string ends in the original
traceback. -/
theorem load_plugin_registry_effects
    (reg : List (String × PState)) (dirname name sid k tb : String)
    (pluginId : Option String) (pre : List (String × Nat))
    (hpid : ∀ pid, pluginId = some pid →
      (reg.map Prod.fst).contains pid = false) :
    ((load_plugin reg dirname name sid pluginId true .noManifest).1 = reg)
    ∧ ((load_plugin reg dirname name sid pluginId true
          .manifestParseError).1 = reg)
    ∧ ((load_plugin reg dirname name sid pluginId true
          (.missingKey k)).1 = reg)
    ∧ ((load_plugin reg dirname name sid pluginId true .noInitPy).1 = reg)
    ∧ (load_plugin reg dirname name sid pluginId true (.importError tb)
        = (Dock.dictSet reg sid ⟨[], false, 0⟩, false, some sid,
            loadFailedMessage name "Failed to load module" ++ "\n" ++ tb))
    ∧ (load_plugin reg dirname name sid pluginId true (.initError tb pre)
        = (Dock.dictSet reg sid ⟨[], false, if pre.isEmpty then 0 else 1⟩,
            false, some sid,
            loadFailedMessage name "Encountered an error while calling init"
              ++ "\n" ++ tb)) := by
  have hguard : pluginId.elim false
      (fun pid => decide (pid ∈ reg.map Prod.fst)) = false := by
    cases hp : pluginId with
    | none => rfl
    | some pid => simpa using hpid pid hp
  refine ⟨?_, ?_, ?_, ?_, ?_, ?_⟩ <;>
    simp [load_plugin, plugin_load, metaSet, hguard]

/-- C5 witness: the registry effects evaluated at a concrete registry and
concrete failure data. -/
theorem load_plugin_registry_effects_witness :
    ((load_plugin [] "d" "n" "s0" (some "p") true .noManifest).1
      = ([] : List (String × PState)))
    ∧ ((load_plugin [] "d" "n" "s0" (some "p") true
          .manifestParseError).1 = [])
    ∧ ((load_plugin [] "d" "n" "s0" (some "p") true
          (.missingKey "author")).1 = [])
    ∧ ((load_plugin [] "d" "n" "s0" (some "p") true .noInitPy).1 = [])
    ∧ (load_plugin [] "d" "n" "s0" (some "p") true (.importError "tb")
        = (Dock.dictSet [] "s0" ⟨[], false, 0⟩, false, some "s0",
            loadFailedMessage "n" "Failed to load module" ++ "\n" ++ "tb"))
    ∧ (load_plugin [] "d" "n" "s0" (some "p") true
          (.initError "tb" [("x", 1)])
        = (Dock.dictSet [] "s0" ⟨[], false, 1⟩, false, some "s0",
            loadFailedMessage "n" "Encountered an error while calling init"
              ++ "\n" ++ "tb")) :=
  load_plugin_registry_effects [] "d" "n" "s0" "author" "tb" (some "p")
    [("x", 1)] (by intro pid h; cases h; rfl)

end Dock.Manager

namespace Dock.Parse

/-- C6: dispatching a parse event threads the string through the plugin
parse hooks sequentially, in registration order, for exactly two full
passes, each hook receiving the string as rewritten by all prior steps; a
hook that raises (and a plugin without a hook) leaves the string unchanged
for its step; hence for two plugins with non-raising transforms f1 then f2
the final result is f2 (f1 (f2 (f1 s))). -/
theorem handle_parse_pipeline (f1 f2 : String → String) (s : String)
    (hooks : List (Option (String → Except Unit String))) :
    (handle_parse [some (fun t => .ok (f1 t)), some (fun t => .ok (f2 t))] s
      = f2 (f1 (f2 (f1 s))))
    ∧ handle_parse hooks s = parsePass hooks (parsePass hooks s)
    ∧ (parsePass [some (fun t => .ok (f1 t)), some (fun t => .ok (f2 t))] s
      = f2 (f1 s))
    ∧ call_parse_hook (some (fun _ => .error ())) s = s
    ∧ call_parse_hook none s = s :=
  ⟨rfl, rfl, rfl, rfl, rfl⟩

end Dock.Parse

namespace Dock.Routes

/-- Helper: the shared bearer gate admits a request exactly when its
Authorization header equals the session secret. -/
theorem gate_bearer_eq (C : String) (ch kc : Option String) (r : Request) :
    gate_bearer ⟨some C, ch, kc⟩ r
      = if r.header = some C then GateResult.proceeds else .unauthorized := by
  cases hh : r.header with
  | none => simp [gate_bearer, bearerGuard, hh]
  | some h => by_cases hc : h = C <;> simp [gate_bearer, bearerGuard, hh, hc]

/-- C7 counterexample: after a handshake establishing secret C, the claim
quantified over every route of the table except /version fails on two
routes: /auth rejects with 401 even a request whose bearer header equals C
(it rejects every request once a secret is set), and /kill never consults
the bearer header — with the kill code supplied it admits a request whose
header differs from C. -/
theorem bearer_guard_not_universal :
    ((routeGate "/auth").map
        (fun g => g ⟨some "C", none, some "K"⟩ ⟨some "C", none, none⟩))
      = some .unauthorized
    ∧ ((routeGate "/kill").map
        (fun g => g ⟨some "C", none, some "K"⟩ ⟨some "bad", none, some "K"⟩))
      = some .proceeds
    ∧ "/auth" ≠ "/version" ∧ "/kill" ≠ "/version" :=
  ⟨rfl, rfl, by decide, by decide⟩

/-- C7 amended: restricted to the bearer-guarded routes — every route of
the table except /version, /auth and /kill — the guard admits a request
exactly when its Authorization header equals the session secret C, and
rejects it with 401 when the header is absent or different; /auth instead
rejects everything once a secret is set and /kill is gated solely by the
kill code. -/
theorem bearer_guard_amended (name : String)
    (hname : name ∈ bearerGuardedRoutes) (C : String) (ch kc : Option String)
    (r : Request) :
    (routeGate name).map (fun g => g ⟨some C, ch, kc⟩ r)
      = some (if r.header = some C then GateResult.proceeds
              else .unauthorized) := by
  fin_cases hname <;> exact congrArg some (gate_bearer_eq C ch kc r)

/-- C7 witness: the amended guard statement evaluated at the /authcheck
route with matching header. -/
theorem bearer_guard_amended_witness :
    (routeGate "/authcheck").map
        (fun g => g ⟨some "C", none, none⟩ ⟨some "C", none, none⟩)
      = some GateResult.proceeds :=
  bearer_guard_amended "/authcheck" (by simp [bearerGuardedRoutes]) "C"
    none none ⟨some "C", none, none⟩

end Dock.Routes

namespace Dock.Err

/-- C8: the report for a chain h :: rest is the report of the chain [h]
alone — only the first-registered error handler is ever invoked — with
the multiple-registration note appended exactly when more than one is
registered; and for a plugin whose single loaded injector declared no
error handler, the chain is the Injector default on_error alone, so the
report is the formatted exception trace. -/
theorem error_chain_first_wins (h : ErrHandler) (rest : List ErrHandler)
    (event : String) (err : PyError)
    (declared : List (String × ErrHandler))
    (hd : (declared.map Prod.fst).contains "error" = false) :
    (call_error_listeners (h :: rest) event err
      = (call_error_listeners [h] event err).map
          (fun s => if rest.isEmpty then s else s ++ multiNote))
    ∧ errorChain [injectorListeners declared] = [on_error]
    ∧ call_error_listeners (errorChain [injectorListeners declared])
        event err = some err.trace := by
  have hchain : errorChain [injectorListeners declared] = [on_error] := by
    have hfil : declared.filter (fun p => p.1 == "error") = [] := by
      rw [List.filter_eq_nil_iff]
      intro p hp hpe
      have hmem : "error" ∈ declared.map Prod.fst :=
        List.mem_map.mpr ⟨p, hp, by simpa using hpe⟩
      have hc : (declared.map Prod.fst).contains "error" = true := by
        simpa [List.contains] using List.elem_iff.mpr hmem
      exact absurd (hd.symm.trans hc) (by decide)
    unfold errorChain injectorListeners
    rw [hd]
    simp [hfil]
  refine ⟨?_, hchain, ?_⟩
  · cases hh : h event err <;> cases rest <;>
      simp [call_error_listeners, hh, multiNote]
  · rw [hchain]
    rfl

/-- C8 witness: the error chain facts evaluated at the default handler, a
singleton chain and an injector declaring no error listener. -/
theorem error_chain_first_wins_witness :
    (call_error_listeners [on_error] "parse" ⟨"tb"⟩
      = (call_error_listeners [on_error] "parse" ⟨"tb"⟩).map
          (fun s => if ([] : List ErrHandler).isEmpty then s
                    else s ++ multiNote))
    ∧ errorChain [injectorListeners []] = [on_error]
    ∧ call_error_listeners (errorChain [injectorListeners []]) "parse"
        ⟨"tb"⟩ = some "tb" :=
  error_chain_first_wins on_error [] "parse" ⟨"tb"⟩ [] rfl

end Dock.Err

namespace Dock.Inj

/-- C9: the load halves of the claim hold — load_injector on a fresh
bundle attaches its declared handlers as (injector, callback) tuples, and
a second load of the same bundle raises InjectorLoadUnloadError attaching
nothing. The unload halves fail on the code: unload_injector on a bundle
that is not attached raises the bare ValueError out of list.remove (the
except clause names KeyError, so the injector-misuse error is dead code),
and unload_injector on an attached bundle removes the bundle from the
injector list but removes nothing from the listener table, because
remove_listeners searches for the bare callback while the table stores
(injector, callback) tuples, which never compare equal under Python
==. -/
theorem unload_injector_bug :
    (load_injector ⟨[], []⟩ 1 [("message", 10)]
      = .ok ⟨[1], [("message", [.tup (.injectorV 1) (.callback 10)])]⟩)
    ∧ (load_injector
          ⟨[1], [("message", [.tup (.injectorV 1) (.callback 10)])]⟩ 1
          [("message", 10)]
      = .error .injectorLoadUnloadError)
    ∧ (unload_injector ⟨[], []⟩ 1 [("message", 10)]
      = .error .valueError)
    ∧ PyExc.valueError ≠ PyExc.injectorLoadUnloadError
    ∧ (unload_injector
          ⟨[1], [("message", [.tup (.injectorV 1) (.callback 10)])]⟩ 1
          [("message", 10)]
      = .ok ⟨[], [("message", [.tup (.injectorV 1) (.callback 10)])]⟩) := by
  refine ⟨rfl, rfl, rfl, by decide, rfl⟩

end Dock.Inj

namespace Dock.Daemon

/-- Helper: dict assignment preserves a pointwise property of the stored
values. -/
theorem dictSet_pred {α : Type} (P : α → Prop) (reg : List (String × α))
    (k : String) (v : α) (hreg : ∀ kv ∈ reg, P kv.2) (hv : P v) :
    ∀ kv ∈ Dock.dictSet reg k v, P kv.2 := by
  intro kv hkv
  unfold Dock.dictSet at hkv
  split at hkv
  · rcases List.mem_map.mp hkv with ⟨a, ha, rfl⟩
    by_cases hak : a.1 = k
    · simpa [hak] using hv
    · simpa [hak] using hreg a ha
  · rcases List.mem_append.mp hkv with hkv | hkv
    · exact hreg kv hkv
    · simp only [List.mem_singleton] at hkv
      subst hkv
      exact hv

/-- C10: in every registry state reachable by the daemon operations, every
plugin has enabled = False (Plugin.__init__ sets it and nothing ever
assigns True), and therefore the broadcast dispatch of message and
raw_message events, which schedules listener calls only for enabled
plugins, schedules none at all. -/
theorem enabled_never_true (s : List (String × DPlugin)) (h : Reach s) :
    (∀ kv ∈ s, kv.2.enabled = false) ∧ broadcastTargets s = [] := by
  have hinv : ∀ kv ∈ s, kv.2.enabled = false := by
    induction h with
    | init => intro kv hkv; cases hkv
    | load s sid ls ok _ ih =>
        exact dictSet_pred (fun p => p.enabled = false) s sid
          { newPlugin with listeners := ls, isLoaded := ok } ih rfl
    | reloadR s sid ls _ ih =>
        intro kv hkv
        rcases List.mem_map.mp hkv with ⟨a, ha, rfl⟩
        by_cases hak : a.1 = sid <;> simpa [hak] using ih a ha
  refine ⟨hinv, ?_⟩
  have hfil : s.filter (fun kv => kv.2.enabled) = [] := by
    rw [List.filter_eq_nil_iff]
    intro kv hkv
    simp [hinv kv hkv]
  simp [broadcastTargets, hfil]

/-- C10 witness: the invariant evaluated at the reachable state produced
by loading one plugin that registered a message listener. -/
theorem enabled_never_true_witness :
    (∀ kv ∈ loadOp [] "p1" [("message", 0)] true, kv.2.enabled = false)
    ∧ broadcastTargets (loadOp [] "p1" [("message", 0)] true) = [] :=
  enabled_never_true _ (Reach.load [] "p1" [("message", 0)] true Reach.init)

end Dock.Daemon
